import Mathlib

/-!
Verification of the SurrealPy websocket client core (`surrealpy/ws`)
against its natural-language specification.

The Python source is shallowly embedded: the dynamic values exchanged
with the server become the inductive type `PyVal`, fallible Python code
becomes `Except PyErr _`, and each method under scrutiny becomes a Lean
function translated clause by clause from `src/surrealpy`.
-/

namespace SurrealPy

/-- A Python value as it appears in this client: JSON scalars, lists,
tuples, dicts with string keys (all dicts in this code are keyed by
strings), and sets.  Mirrors the dynamic `Any` values flowing through
`surrealpy/ws/__init__.py` and `surrealpy/utils.py`. -/
inductive PyVal where
  | none
  | bool (b : Bool)
  | int (n : Int)
  | str (s : String)
  | list (xs : List PyVal)
  | tuple (xs : List PyVal)
  | dict (kvs : List (String × PyVal))
  | set (xs : List PyVal)

/-- The Python exceptions raised along the code paths under study. -/
inductive PyErr where
  | keyError (k : PyVal)
  | typeError (msg : String)
  | valueError (msg : String)
  | indexError (msg : String)
  | surrealError (msg : String)
  | webSocketError (code : Int) (message : String)
  | surrealQLSyntax (message : String) (query : String)
      (line : Option Nat) (index : Option Nat)
  | webSocketErrorRaw (v : PyVal)
  | unknownError (j : PyVal)

/-- Lookup in a Python dict with string keys (`d.get(key)` /
`d[key]` before the KeyError check). -/
def dictGet : List (String × PyVal) → String → Option PyVal
  | [], _ => Option.none
  | (k, v) :: rest, key => if k = key then some v else dictGet rest key

mutual

/-- Boolean structural equality on `PyVal`, matching Python `==` on the
JSON-shaped values this client passes around (used for dict-key lookups
such as `self._queue[response["id"]]`). -/
def pyBeq : PyVal → PyVal → Bool
  | PyVal.none, PyVal.none => true
  | PyVal.bool a, PyVal.bool b => a = b
  | PyVal.int a, PyVal.int b => a = b
  | PyVal.str a, PyVal.str b => a = b
  | PyVal.list a, PyVal.list b => pyListBeq a b
  | PyVal.tuple a, PyVal.tuple b => pyListBeq a b
  | PyVal.dict a, PyVal.dict b => pyKvBeq a b
  | PyVal.set a, PyVal.set b => pyListBeq a b
  | _, _ => false

/-- Elementwise equality of value lists. -/
def pyListBeq : List PyVal → List PyVal → Bool
  | [], [] => true
  | x :: xs, y :: ys => pyBeq x y && pyListBeq xs ys
  | _, _ => false

/-- Elementwise equality of key-value lists. -/
def pyKvBeq : List (String × PyVal) → List (String × PyVal) → Bool
  | [], [] => true
  | (k, v) :: xs, (l, w) :: ys => k = l && pyBeq v w && pyKvBeq xs ys
  | _, _ => false

end

/-- JSON escaping of one character inside a string literal
(`orjson.dumps` / `json.dumps` both use these escapes). -/
def jsonEscapeChar (c : Char) : String :=
  if c = '"' then "\\\""
  else if c = '\\' then "\\\\"
  else if c = '\n' then "\\n"
  else if c = '\t' then "\\t"
  else if c = '\r' then "\\r"
  else String.singleton c

mutual

/-- `surrealpy.utils.json_dumps`: serialize a value to JSON text.
The primary branch wraps `orjson.dumps`, which raises
`TypeError` on a Python `set` (sets are not JSON serializable); the
`json` fallback behaves the same on the cases the claims exercise
(scalars and sets).  Containers are rendered in the compact `orjson`
style. -/
def jsonDumps : PyVal → Except PyErr String
  | PyVal.none => Except.ok "null"
  | PyVal.bool true => Except.ok "true"
  | PyVal.bool false => Except.ok "false"
  | PyVal.int n => Except.ok (toString n)
  | PyVal.str s =>
      Except.ok ("\"" ++ String.join (s.data.map jsonEscapeChar) ++ "\"")
  | PyVal.list xs => do
      let parts ← jsonDumpsList xs
      Except.ok ("[" ++ String.intercalate "," parts ++ "]")
  | PyVal.tuple xs => do
      let parts ← jsonDumpsList xs
      Except.ok ("[" ++ String.intercalate "," parts ++ "]")
  | PyVal.dict kvs => do
      let parts ← jsonDumpsKvs kvs
      Except.ok ("\x7b" ++ String.intercalate "," parts ++ "\x7d")
  | PyVal.set _ =>
      Except.error (PyErr.typeError "Type is not JSON serializable: set")

/-- Serialize the elements of a JSON array. -/
def jsonDumpsList : List PyVal → Except PyErr (List String)
  | [] => Except.ok []
  | x :: xs => do
      let s ← jsonDumps x
      let rest ← jsonDumpsList xs
      Except.ok (s :: rest)

/-- Serialize the entries of a JSON object. -/
def jsonDumpsKvs : List (String × PyVal) → Except PyErr (List String)
  | [] => Except.ok []
  | (k, v) :: kvs => do
      let s ← jsonDumps v
      let rest ← jsonDumpsKvs kvs
      Except.ok (("\"" ++ String.join (k.data.map jsonEscapeChar) ++ "\":" ++ s) :: rest)

end

/-! ## The query-syntax-error diagnostic regex

`surrealpy/exceptions.py` compiles
`SURREALQL_SYNTAX_REGEX = re.compile(r"line (\d+) at character (\d+)")`
and `SurrealQLSyntaxError.__init__` runs `.search` on the error message.
The pattern has no alternation, and `\d+` is a maximal digit run that
must be followed by a non-digit literal, so a leftmost scan with greedy
digit runs is exactly `re.search`. -/

/-- Strip a literal prefix, or fail. -/
def matchLit : List Char → List Char → Option (List Char)
  | [], cs => some cs
  | _, [] => Option.none
  | l :: ls, c :: cs => if c = l then matchLit ls cs else Option.none

/-- Consume a maximal non-empty run of ASCII digits (`\d+`), returning
its value and the rest. -/
def takeDigits (cs : List Char) : Option (Nat × List Char) :=
  let run := cs.takeWhile Char.isDigit
  if run.isEmpty then Option.none
  else some (run.foldl (fun acc c => acc * 10 + (c.toNat - 48)) 0, cs.dropWhile Char.isDigit)

/-- Try to match `line (\d+) at character (\d+)` anchored at the start
of `cs`, returning the two captured numbers. -/
def syntaxLocAt (cs : List Char) : Option (Nat × Nat) := do
  let cs ← matchLit "line ".data cs
  let (l, cs) ← takeDigits cs
  let cs ← matchLit " at character ".data cs
  let (c, _) ← takeDigits cs
  some (l, c)

/-- Leftmost match of the diagnostic pattern (`re.search` semantics). -/
def searchSyntaxLoc : List Char → Option (Nat × Nat)
  | [] => Option.none
  | c :: rest =>
      match syntaxLocAt (c :: rest) with
      | some r => some r
      | Option.none => searchSyntaxLoc rest

/-- `SURREALQL_SYNTAX_REGEX.search(message)`, reduced to the two
captured integers. -/
def findSyntaxLoc (s : String) : Option (Nat × Nat) :=
  searchSyntaxLoc s.data

/-- The state of a `SurrealQLSyntaxError` instance
(`surrealpy/exceptions.py`): message, offending query and the optional
extracted 1-based line/character position. -/
structure SurrealQLSyntaxErrorState where
  message : String
  query : String
  line : Option Nat
  index : Option Nat
  deriving DecidableEq, Repr

/-- `SurrealQLSyntaxError.__init__(message, query)` with the default
`line=None, index=None` arguments (the only call shape in
`SurrealClient._send` / `SurrealClientThread._send`):
`self.line = line or int(match.group(1)) if match else None` evaluates,
with `line=None`, to the first captured group when the regex matches
and to `None` otherwise; likewise for `index`. -/
def mkSurrealQLSyntaxError (message query : String) : SurrealQLSyntaxErrorState :=
  match findSyntaxLoc message with
  | some (l, c) => ⟨message, query, some l, some c⟩
  | Option.none => ⟨message, query, Option.none, Option.none⟩

/-- Error classification in `SurrealClientThread._send` (and identically
in `SurrealClient._send`): an error reply with code `-32000` becomes a
`SurrealQLSyntaxError` built from the message and `params[0]` (the query
text), any other code becomes a generic `WebSocketError`. -/
def classifyErrorReply (code : Int) (message : String) (queryText : String) : PyErr :=
  if code = -32000 then
    let e := mkSurrealQLSyntaxError message queryText
    PyErr.surrealQLSyntax e.message e.query e.line e.index
  else
    PyErr.webSocketError code message

/-- `SurrealClientThread._send` after the response for this request id
has been taken from the queue: `response.get("error") is not None`
selects the error path (classify and raise, after emitting ERROR),
otherwise the pair `(response["id"], response["result"])` is returned.
Missing keys on either path raise `KeyError` as in Python. -/
def sendHandleReply (reply : PyVal) (queryText : String) : Except PyErr (PyVal × PyVal) :=
  match reply with
  | PyVal.dict kvs =>
      match dictGet kvs "error" with
      | some (PyVal.dict ekvs) =>
          match dictGet ekvs "code", dictGet ekvs "message" with
          | some (PyVal.int code), some (PyVal.str msg) =>
              Except.error (classifyErrorReply code msg queryText)
          | _, _ => Except.error (PyErr.keyError (PyVal.str "code"))
      | some PyVal.none | Option.none =>
          match dictGet kvs "id", dictGet kvs "result" with
          | some i, some r => Except.ok (i, r)
          | _, _ => Except.error (PyErr.keyError (PyVal.str "id"))
      | some _ => Except.error (PyErr.typeError "error field is not subscriptable")
  | _ => Except.error (PyErr.typeError "response is not a dict")

/-- A well-formed error reply envelope
`{"id": ..., "error": {"code": ..., "message": ...}}`. -/
def errorReply (idv : PyVal) (code : Int) (message : String) : PyVal :=
  PyVal.dict [("id", idv), ("error", PyVal.dict [("code", PyVal.int code), ("message", PyVal.str message)])]

/-! ## The receive loop (`SurrealClientThread._receive_responses`)

One daemon thread runs `while self.ws.connected: response = self._ws.recv(); ...`.
We model the frames the loop will read until the connection closes as a
finite list; exhausting the list is `ws.connected` turning false, at
which point the `while` simply exits.  `self._queue` (request id →
response queue) is the `pending` field; `logger.debug` appends to
`logged`; `self._event_manager.emit(...)` appends the event kind to
`emitted`.  An uncaught exception terminates the thread, which we model
by stopping the fold and returning the exception. -/

/-- The contents of `self._queue`: for each registered request id, the
responses delivered to its `queue.Queue` so far (a fresh registration is
an empty list). -/
def pendingLookup : List (PyVal × List PyVal) → PyVal → Option (List PyVal)
  | [], _ => Option.none
  | (k, q) :: rest, key => if pyBeq k key then some q else pendingLookup rest key

/-- `self._queue[key].put_nowait(v)`: append `v` to the queue registered
under `key` (callers guarantee the key is present). -/
def pendingPut : List (PyVal × List PyVal) → PyVal → PyVal → List (PyVal × List PyVal)
  | [], _, _ => []
  | (k, q) :: rest, key, v =>
      if pyBeq k key then (k, q ++ [v]) :: rest else (k, q) :: pendingPut rest key v

/-- State touched by the receive loop. -/
structure RecvState where
  pending : List (PyVal × List PyVal)
  logged : List PyVal
  emitted : List String

/-- `response.get("id", None) is not None`: the id of a decoded reply
object, with a JSON `null` id counting as absent. -/
def responseGetId (kvs : List (String × PyVal)) : Option PyVal :=
  match dictGet kvs "id" with
  | some PyVal.none => Option.none
  | some v => some v
  | Option.none => Option.none

/-- One iteration body of `_receive_responses` on a decoded reply
object `kvs`.  Returns the state after the iteration and the uncaught
exception, if the iteration raised one:
* every response is first logged (`logger.debug`);
* a response with an id is delivered via
  `self._queue[response["id"]].put_nowait(response)` — when no queue is
  registered under that id, the subscript raises `KeyError` — and then
  the RECEIVED event is emitted;
* otherwise, a response with an "error" key emits ERROR and raises
  `WebSocketError(response["error"])`;
* anything else raises the generic "Unknown error" exception. -/
def processFrame (st : RecvState) (kvs : List (String × PyVal)) :
    RecvState × Option PyErr :=
  let st1 : RecvState := { st with logged := st.logged ++ [PyVal.dict kvs] }
  match responseGetId kvs with
  | some i =>
      match pendingLookup st1.pending i with
      | some _ =>
          ({ st1 with pending := pendingPut st1.pending i (PyVal.dict kvs),
                      emitted := st1.emitted ++ ["received"] }, Option.none)
      | Option.none => (st1, some (PyErr.keyError i))
  | Option.none =>
      match dictGet kvs "error" with
      | some e => ({ st1 with emitted := st1.emitted ++ ["error"] },
                   some (PyErr.webSocketErrorRaw e))
      | Option.none => (st1, some (PyErr.unknownError (PyVal.dict kvs)))

/-- A frame read by `self._ws.recv()`: either an empty/None frame
(the loop `continue`s) or a decoded JSON object. -/
inductive Frame where
  | empty
  | msg (kvs : List (String × PyVal))

/-- The whole `_receive_responses` loop over the frames remaining before
the connection closes.  When the list is exhausted (`ws.connected` is
false) the loop exits, returning the state as is: there is no code after
the loop, in particular no draining of `self._queue`. -/
def receiveLoop : List Frame → RecvState → RecvState × Option PyErr
  | [], st => (st, Option.none)
  | Frame.empty :: rest, st => receiveLoop rest st
  | Frame.msg kvs :: rest, st =>
      match processFrame st kvs with
      | (st1, Option.none) => receiveLoop rest st1
      | (st1, some e) => (st1, some e)

/-! ## The event bus (`surrealpy/ws/event.py`, class `_EventManager`)

`self.events` maps an event-kind string to its registered callbacks; we
keep each callback set as a list in iteration order.  A callback is
abstracted by an id plus whether `asyncio.iscoroutinefunction` holds for
it, which is the only property `emit` inspects. -/

/-- A registered callback, as `emit` sees it. -/
structure Handler where
  hid : Nat
  isCoroutine : Bool
  deriving DecidableEq, Repr

/-- What `emit` does with one callback on the calling thread:
`syncCall` is `self._async_loop.run_until_complete(callback(data))`
(the callback runs now, on the thread that called `emit`), `enqueue` is
`self._event_queue.put(partial(callback, data))` (the callback will run
later, on the dispatch worker). -/
inductive EmitAction where
  | syncCall (h : Handler)
  | enqueue (h : Handler)
  deriving DecidableEq, Repr

/-- Lookup of `self.events[kind]`. -/
def lookupHandlers : List (String × List Handler) → String → Option (List Handler)
  | [], _ => Option.none
  | (k, hs) :: rest, key => if k = key then some hs else lookupHandlers rest key

/-- The per-callback branch of `emit`:
`if asyncio.iscoroutinefunction(callback): run_until_complete(...)
else: self._event_queue.put(...)`. -/
def dispatchOf (h : Handler) : EmitAction :=
  if h.isCoroutine then EmitAction.syncCall h else EmitAction.enqueue h

/-- `_EventManager.emit(event, data)`, as the sequence of actions taken
on the calling thread.  The whole body is guarded by
`if event in self.events:`; inside the guard the kind-specific loop runs
first, then the loop over `self.events.get("all", [])` (the wildcard
kind).  When the kind has no entry in `self.events`, nothing at all
happens — including for the wildcard handlers. -/
def emitActions (reg : List (String × List Handler)) (kind : String) : List EmitAction :=
  match lookupHandlers reg kind with
  | Option.none => []
  | some hs =>
      hs.map dispatchOf ++ ((lookupHandlers reg "all").getD []).map dispatchOf

/-- One enqueued `partial(callback, data)` waiting on
`self._event_queue`, abstracted by the callback id, the event it was
called with, and whether invoking it raises. -/
structure QueuedCall where
  handlerId : Nat
  eventId : Nat
  raises : Bool
  deriving DecidableEq, Repr

/-- `_EventManager._handle_events`, the dispatch worker:
`while True: event = self._event_queue.get(); event()` — with no
`try`/`except` around `event()`.  Over the queue contents (FIFO), it
returns the calls actually invoked and, if one of them raised, that
call: the exception propagates out of the `while` loop and the worker
thread dies, so everything behind the raising call is never invoked. -/
def handleEvents : List QueuedCall → List QueuedCall × Option QueuedCall
  | [] => ([], Option.none)
  | c :: rest =>
      if c.raises then ([c], some c)
      else
        let r := handleEvents rest
        (c :: r.1, r.2)

/-! ## `SurrealResponse` construction (`surrealpy/ws/models.py` line 51)

The frozen dataclass declares the fields `id` and `results`.  Its
generated `__init__` therefore accepts exactly the keyword arguments
`id` and `results`; any other keyword raises
`TypeError: __init__() got an unexpected keyword argument ...`.
Every success path of the public operations in
`surrealpy/ws/__init__.py` calls `SurrealResponse(id=..., result=...)`
with the keyword `result`. -/

/-- The fields of the `SurrealResponse` dataclass. -/
structure SurrealResponseState where
  id : PyVal
  results : PyVal

/-- The dataclass-generated `SurrealResponse.__init__`, called with
keyword arguments only (the call shape used by the public operations):
an unexpected keyword raises `TypeError`; a missing field (the fields
have no defaults) also raises `TypeError`. -/
def surrealResponseInitKw (kwargs : List (String × PyVal)) :
    Except PyErr SurrealResponseState :=
  match kwargs.find? (fun kv => !(["id", "results"].contains kv.1)) with
  | some kv =>
      Except.error (PyErr.typeError
        ("got an unexpected keyword argument " ++ kv.1))
  | Option.none =>
      match dictGet kwargs "id", dictGet kwargs "results" with
      | some i, some r => Except.ok ⟨i, r⟩
      | _, _ => Except.error (PyErr.typeError "missing required positional argument")

/-- `SurrealClient.find` after `_send` succeeded with `(rid, res)`:
`return SurrealResponse(id=returnData[0], result=returnData[1])`. -/
def findResult (rid res : PyVal) : Except PyErr SurrealResponseState :=
  surrealResponseInitKw [("id", rid), ("result", res)]

/-- `SurrealClient.create` success path:
`return SurrealResponse(id=_id,result=result)`. -/
def createResult (rid res : PyVal) : Except PyErr SurrealResponseState :=
  surrealResponseInitKw [("id", rid), ("result", res)]

/-- `SurrealClient.update` success path. -/
def updateResult (rid res : PyVal) : Except PyErr SurrealResponseState :=
  surrealResponseInitKw [("id", rid), ("result", res)]

/-- `SurrealClient.change` success path. -/
def changeResult (rid res : PyVal) : Except PyErr SurrealResponseState :=
  surrealResponseInitKw [("id", rid), ("result", res)]

/-- `SurrealClient.modify` success path. -/
def modifyResult (rid res : PyVal) : Except PyErr SurrealResponseState :=
  surrealResponseInitKw [("id", rid), ("result", res)]

/-- `SurrealClient.delete` success path. -/
def deleteResult (rid res : PyVal) : Except PyErr SurrealResponseState :=
  surrealResponseInitKw [("id", rid), ("result", res)]

/-- `SurrealClient.query` success path: `return SurrealResponse(id=id,
result=[r.get("result") for r in query_result])`, where each row is a
dict. -/
def queryResult (rid : PyVal) (rows : List (List (String × PyVal))) :
    Except PyErr SurrealResponseState :=
  surrealResponseInitKw
    [("id", rid),
     ("result", PyVal.list (rows.map (fun r => (dictGet r "result").getD PyVal.none)))]

/-! ## `use` (`SurrealClient.use` and `SurrealClientThread.use`) -/

/-- The client state the `use` methods can touch: `self._namespace`
(the `namespace` property), `self._database` (the `database` property),
and the kinds of events emitted. -/
structure ClientState where
  namespaceOpt : Option String
  databaseOpt : Option String
  emitted : List String

/-- Outcome of the `_send("use", namespace, database)` round trip. -/
inductive UseOutcome where
  | success (rid result : PyVal)
  | failure (code : Int) (message : String)

/-- `SurrealClient.use` (the deprecated synchronous class):
`returnData = self._send("use", namespace, database)[1];
self._namespace = namespace; self._database = database`.
`_send` raises on an error reply, so the two assignments run only after
a success reply; on failure the exception propagates with the state
untouched. -/
def surrealClientUse (st : ClientState) (ns db : String) (o : UseOutcome) :
    ClientState × Except PyErr PyVal :=
  match o with
  | UseOutcome.failure c m => (st, Except.error (classifyErrorReply c m ns))
  | UseOutcome.success _ r =>
      ({ st with namespaceOpt := some ns, databaseOpt := some db }, Except.ok r)

/-- `SurrealClientThread.use` (the current client): it overrides the
base method, calls `_send`, emits a USE event on success — and never
assigns `self._namespace` or `self._database`. -/
def surrealClientThreadUse (st : ClientState) (ns db : String) (o : UseOutcome) :
    ClientState × Except PyErr PyVal :=
  match o with
  | UseOutcome.failure c m =>
      ({ st with emitted := st.emitted ++ ["error"] },
       Except.error (classifyErrorReply c m ns))
  | UseOutcome.success _ r =>
      ({ st with emitted := st.emitted ++ ["use"] }, Except.ok r)

/-! ## `login` (`SurrealClientThread.login`, `LoginParams`) -/

/-- The two fields of the frozen dataclass `LoginParams`. -/
structure LoginParamsState where
  username : String
  password : String
  deriving DecidableEq, Repr

/-- `LoginParams.__post_init__`: `if not self.username: raise
ValueError("username is required")`, then the same for the password.
The only validation in the login path, and it raises the builtin
`ValueError` — not `surrealpy.exceptions.ValidationError`, which no
code in the package ever raises. -/
def mkLoginParams (u p : String) : Except PyErr LoginParamsState :=
  if u = "" then Except.error (PyErr.valueError "username is required")
  else if p = "" then Except.error (PyErr.valueError "password is required")
  else Except.ok ⟨u, p⟩

/-- `LoginParams.to_dict()`: the fields under their wire aliases. -/
def loginParamsToDict (lp : LoginParamsState) : List (String × PyVal) :=
  [("user", PyVal.str lp.username), ("pass", PyVal.str lp.password)]

/-- `SurrealClient._clean_dict_params`: drop entries whose value is
`None` (empty strings are kept). -/
def cleanDictParams (d : List (String × PyVal)) : List (String × PyVal) :=
  d.filter fun kv =>
    match kv.2 with
    | PyVal.none => false
    | _ => true

/-- The credentials accepted by `login`. -/
inductive Credentials where
  | loginParams (lp : LoginParamsState)
  | dict (d : List (String × PyVal))

/-- `SurrealClientThread.login` up to the point the request goes on the
wire: a `LoginParams` is converted with `to_dict()`, a plain dict is
used as is; either way the cleaned params are sent as a `signin`
request.  No validation happens here — the dict path sends whatever it
is given. -/
def threadLoginRequest (c : Credentials) :
    Except PyErr (String × List (String × PyVal)) :=
  match c with
  | Credentials.loginParams lp =>
      Except.ok ("signin", cleanDictParams (loginParamsToDict lp))
  | Credentials.dict d => Except.ok ("signin", cleanDictParams d)

/-- The full pipeline for string credentials: construct
`LoginParams(username, password)` (running `__post_init__`), then call
`login` with it. -/
def loginWithParams (u p : String) :
    Except PyErr (String × List (String × PyVal)) := do
  let lp ← mkLoginParams u p
  threadLoginRequest (Credentials.loginParams lp)

/-! ## `query` parameter substitution
(`SurrealClient.query`, `surrealpy.utils.escape_sql_params`, `str.format`) -/

/-- An opening brace, kept out of string literals. -/
def lbraceChar : Char := Char.ofNat 123

/-- A closing brace. -/
def rbraceChar : Char := Char.ofNat 125

/-- A single quote, for Python `repr` of strings. -/
def squote : String := String.singleton (Char.ofNat 39)

mutual

/-- Python `repr` of a value, as `str.format` renders non-string
arguments (approximate: string escaping inside `repr` is not modelled;
the claims only format strings produced by `json_dumps`, which go
through `pyStr` instead). -/
def pyRepr : PyVal → String
  | PyVal.none => "None"
  | PyVal.bool true => "True"
  | PyVal.bool false => "False"
  | PyVal.int n => toString n
  | PyVal.str s => squote ++ s ++ squote
  | PyVal.list xs => "[" ++ String.intercalate ", " (pyReprList xs) ++ "]"
  | PyVal.tuple xs => "(" ++ String.intercalate ", " (pyReprList xs) ++ ")"
  | PyVal.dict kvs => "\x7b" ++ String.intercalate ", " (pyReprKvs kvs) ++ "\x7d"
  | PyVal.set xs => "\x7b" ++ String.intercalate ", " (pyReprList xs) ++ "\x7d"

/-- `repr` of the elements of a list. -/
def pyReprList : List PyVal → List String
  | [] => []
  | x :: xs => pyRepr x :: pyReprList xs

/-- `repr` of the entries of a dict. -/
def pyReprKvs : List (String × PyVal) → List String
  | [] => []
  | (k, v) :: kvs => (squote ++ k ++ squote ++ ": " ++ pyRepr v) :: pyReprKvs kvs

end

/-- Python `str(v)` as used by `str.format` on a replacement value: a
string is inserted as is, anything else through `repr`-style
rendering. -/
def pyStr (v : PyVal) : String :=
  match v with
  | PyVal.str s => s
  | _ => pyRepr v

mutual

/-- `surrealpy.utils.escape_sql_params`: a dict keeps its keys with
escaped values, a list or tuple becomes a list of escaped elements, and
anything else — scalars, but also sets — is passed to `json_dumps`,
which raises `TypeError` on a set. -/
def escapeSqlParams : PyVal → Except PyErr PyVal
  | PyVal.dict kvs => do
      let es ← escapeSqlKvs kvs
      Except.ok (PyVal.dict es)
  | PyVal.list xs => do
      let es ← escapeSqlList xs
      Except.ok (PyVal.list es)
  | PyVal.tuple xs => do
      let es ← escapeSqlList xs
      Except.ok (PyVal.list es)
  | v => do
      let s ← jsonDumps v
      Except.ok (PyVal.str s)

/-- Escape the elements of a list/tuple. -/
def escapeSqlList : List PyVal → Except PyErr (List PyVal)
  | [] => Except.ok []
  | x :: xs => do
      let e ← escapeSqlParams x
      let es ← escapeSqlList xs
      Except.ok (e :: es)

/-- Escape the values of a dict. -/
def escapeSqlKvs : List (String × PyVal) → Except PyErr (List (String × PyVal))
  | [] => Except.ok []
  | (k, v) :: kvs => do
      let e ← escapeSqlParams v
      let es ← escapeSqlKvs kvs
      Except.ok ((k, e) :: es)

end

/-- Split a format replacement field at its closing brace. -/
def splitField : List Char → Option (List Char × List Char)
  | [] => Option.none
  | c :: cs =>
      if c = rbraceChar then some ([], cs)
      else (splitField cs).map (fun p => (c :: p.1, p.2))

/-- Numeric value of a digit run. -/
def digitsToNat (cs : List Char) : Nat :=
  cs.foldl (fun acc c => acc * 10 + (c.toNat - 48)) 0

/-- Resolve one `str.format` replacement field: an empty field takes
the next auto-numbered positional argument, an all-digit field indexes
the positionals, anything else is looked up among the keyword
arguments; a miss raises `IndexError`/`KeyError` as in Python. -/
def fieldValue (field : List Char) (auto : Nat) (args : List String)
    (kwargs : List (String × String)) : Except PyErr (String × Nat) :=
  if field.isEmpty then
    match args.get? auto with
    | some s => Except.ok (s, auto + 1)
    | Option.none => Except.error (PyErr.indexError "Replacement index out of range")
  else if field.all Char.isDigit then
    match args.get? (digitsToNat field) with
    | some s => Except.ok (s, auto)
    | Option.none => Except.error (PyErr.indexError "Replacement index out of range")
  else
    match kwargs.find? (fun kv => kv.1 = String.mk field) with
    | some kv => Except.ok (kv.2, auto)
    | Option.none => Except.error (PyErr.keyError (PyVal.str (String.mk field)))

/-- The `str.format` scan, with fuel (each step consumes at least one
character, so `length + 1` fuel never runs out): literal text is
copied, doubled braces are unescaped, and each replacement field is
substituted by its resolved argument.  Format specs (`:`-suffixes) and
attribute/index access inside fields are not modelled — the queries in
this client use plain `\x7b\x7d` and `\x7bname\x7d` fields. -/
def pyFormatGo : Nat → List Char → Nat → List String → List (String × String) →
    Except PyErr String
  | 0, _, _, _, _ => Except.error (PyErr.valueError "format fuel exhausted")
  | Nat.succ fuel, cs, auto, args, kwargs =>
      match cs with
      | [] => Except.ok ""
      | c :: rest =>
          if c = lbraceChar then
            match rest with
            | [] => Except.error (PyErr.valueError "Single brace encountered in format string")
            | c2 :: rest2 =>
                if c2 = lbraceChar then do
                  let t ← pyFormatGo fuel rest2 auto args kwargs
                  Except.ok (String.singleton lbraceChar ++ t)
                else
                  match splitField (c2 :: rest2) with
                  | Option.none =>
                      Except.error (PyErr.valueError "expected closing brace before end of string")
                  | some (field, rest3) => do
                      let (v, auto2) ← fieldValue field auto args kwargs
                      let t ← pyFormatGo fuel rest3 auto2 args kwargs
                      Except.ok (v ++ t)
          else if c = rbraceChar then
            match rest with
            | c2 :: rest2 =>
                if c2 = rbraceChar then do
                  let t ← pyFormatGo fuel rest2 auto args kwargs
                  Except.ok (String.singleton rbraceChar ++ t)
                else Except.error (PyErr.valueError "Single brace encountered in format string")
            | [] => Except.error (PyErr.valueError "Single brace encountered in format string")
          else do
            let t ← pyFormatGo fuel rest auto args kwargs
            Except.ok (String.singleton c ++ t)

/-- Python `template.format(*args, **kwargs)`. -/
def pyFormat (template : String) (args : List String)
    (kwargs : List (String × String)) : Except PyErr String :=
  pyFormatGo (template.data.length + 1) template.data 0 args kwargs

/-- Splatting `*escape_sql_params(params)` into `format`: the escaped
collection is a list whose elements are rendered by `str()`; splatting
a bare string would yield its characters. -/
def splatFormatArgs : PyVal → Except PyErr (List String)
  | PyVal.list xs => Except.ok (xs.map pyStr)
  | PyVal.str s => Except.ok (s.data.map String.singleton)
  | _ => Except.error (PyErr.typeError "argument after * must be an iterable")

/-- `**escape_sql_params(params)` for the dict branch. -/
def kwargsFormatArgs : PyVal → Except PyErr (List (String × String))
  | PyVal.dict kvs => Except.ok (kvs.map fun kv => (kv.1, pyStr kv.2))
  | _ => Except.error (PyErr.typeError "argument after ** must be a mapping")

/-- `SurrealClient.query(sql, params=...)` up to the query text handed
to `_send("query", ...)`:
* `params=None` sends `sql` unchanged (as `_send("query", sql, None)`);
* a list, tuple or set runs `sql.format(*escape_sql_params(params))`;
* a dict runs `sql.format(**escape_sql_params(params))`;
* anything else raises
  `TypeError("params must be a list, tuple, set or dict")`.
The value returned is the query text transmitted to the server. -/
def queryTransmitted (sql : String) (params : Option PyVal) : Except PyErr String :=
  match params with
  | Option.none => Except.ok sql
  | some p =>
      match p with
      | PyVal.list _ | PyVal.tuple _ | PyVal.set _ => do
          let e ← escapeSqlParams p
          let args ← splatFormatArgs e
          pyFormat sql args []
      | PyVal.dict _ => do
          let e ← escapeSqlParams p
          let kw ← kwargsFormatArgs e
          pyFormat sql [] kw
      | _ => Except.error (PyErr.typeError "params must be a list, tuple, set or dict")

/-- The JSON scalar values (`None`, booleans, integers, strings). -/
def isJsonScalar : PyVal → Bool
  | PyVal.none => true
  | PyVal.bool _ => true
  | PyVal.int _ => true
  | PyVal.str _ => true
  | _ => false

/-! ## Theorems: the claims C1..C10, settled against the embedding above. -/

/-- C1 (evaluating the code at the failing input): every public
operation's success path — `find`, `create`, `update`, `change`,
`modify`, `delete`, `query` — constructs the reply value with
`SurrealResponse(id=..., result=...)`, but the dataclass declares the
fields `id` and `results`, so instead of returning a `SurrealResponse`
carrying the reply's id and result, every one of these operations
raises `TypeError` on every success reply. -/
theorem c1_success_paths_raise_typeerror :
    ∀ (rid res : PyVal) (rows : List (List (String × PyVal))),
      findResult rid res
          = Except.error (PyErr.typeError "got an unexpected keyword argument result")
      ∧ createResult rid res
          = Except.error (PyErr.typeError "got an unexpected keyword argument result")
      ∧ updateResult rid res
          = Except.error (PyErr.typeError "got an unexpected keyword argument result")
      ∧ changeResult rid res
          = Except.error (PyErr.typeError "got an unexpected keyword argument result")
      ∧ modifyResult rid res
          = Except.error (PyErr.typeError "got an unexpected keyword argument result")
      ∧ deleteResult rid res
          = Except.error (PyErr.typeError "got an unexpected keyword argument result")
      ∧ queryResult rid rows
          = Except.error (PyErr.typeError "got an unexpected keyword argument result") := by
  intro rid res rows
  exact ⟨rfl, rfl, rfl, rfl, rfl, rfl, rfl⟩

/-- C2 (evaluating the code at the failing behavior): when the
connection closes, `_receive_responses` merely falls out of its `while`
loop; every still-registered pending queue is left exactly as it was —
in particular the empty queues of the K outstanding requests stay
empty, so their callers stay blocked in `queue.get()` forever.  Shown
both for an arbitrary state and for a concrete state with K = 2
outstanding requests. -/
theorem c2_close_does_not_drain_pending :
    ∀ (st : RecvState),
      (receiveLoop [] st = (st, Option.none)
        ∧ receiveLoop [Frame.empty] st = (st, Option.none))
      ∧ receiveLoop [] ⟨[(PyVal.str "1", []), (PyVal.str "2", [])], [], []⟩
          = (⟨[(PyVal.str "1", []), (PyVal.str "2", [])], [], []⟩, Option.none) := by
  intro st
  exact ⟨⟨rfl, rfl⟩, rfl⟩

/-- C3 counterexample: a reply carrying id "7" while only id "1" is
registered makes the loop body raise `KeyError` — processing such an
envelope does raise an exception, contrary to the claim that it is
logged and dropped without ever raising. -/
theorem c3_unregistered_id_cex :
    (processFrame ⟨[(PyVal.str "1", [])], [], []⟩
        [("id", PyVal.str "7"), ("result", PyVal.list [])]).2
      = some (PyErr.keyError (PyVal.str "7")) := rfl

/-- C3 amended: the receive loop logs every incoming envelope, but an
envelope whose id has no registered pending slot then raises `KeyError`
from `self._queue[response["id"]]`, which crashes the receive loop — it
is not silently dropped. -/
theorem c3_unregistered_id_raises_keyerror :
    ∀ (st : RecvState) (kvs : List (String × PyVal)) (i : PyVal),
      responseGetId kvs = some i →
      pendingLookup st.pending i = Option.none →
      processFrame st kvs
        = ({ st with logged := st.logged ++ [PyVal.dict kvs] },
           some (PyErr.keyError i)) := by
  intro st kvs i hid hlk
  simp only [processFrame, hid, hlk]

/-- Witness for C3 at a concrete state and envelope. -/
theorem c3_unregistered_id_raises_keyerror_witness :
    processFrame ⟨[(PyVal.str "1", [])], [], []⟩
        [("id", PyVal.str "7"), ("result", PyVal.list [])]
      = (⟨[(PyVal.str "1", [])],
          [PyVal.dict [("id", PyVal.str "7"), ("result", PyVal.list [])]], []⟩,
         some (PyErr.keyError (PyVal.str "7"))) := by
  have h := c3_unregistered_id_raises_keyerror ⟨[(PyVal.str "1", [])], [], []⟩
    [("id", PyVal.str "7"), ("result", PyVal.list [])] (PyVal.str "7") rfl rfl
  simpa using h

/-- C4 counterexample: with the queue holding a raising call on e1
followed by a call on e2, the dispatch worker invokes only the first:
the exception is not caught, the worker thread dies, and e2 is never
delivered. -/
theorem c4_raising_handler_cex :
    handleEvents [⟨1, 1, true⟩, ⟨2, 2, false⟩]
        = ([⟨1, 1, true⟩], some ⟨1, 1, true⟩)
      ∧ (⟨2, 2, false⟩ : QueuedCall) ∉ (handleEvents [⟨1, 1, true⟩, ⟨2, 2, false⟩]).1 := by
  decide

/-- C4 amended: `_handle_events` has no `try`/`except`; a handler that
raises terminates the dispatch worker with the uncaught exception, and
every event enqueued behind the raising call is never delivered. -/
theorem c4_raising_handler_stops_worker :
    ∀ (pre : List QueuedCall) (c : QueuedCall) (post : List QueuedCall),
      (∀ x ∈ pre, x.raises = false) → c.raises = true →
      handleEvents (pre ++ c :: post) = (pre ++ [c], some c) := by
  intro pre c post hpre hc
  induction pre with
  | nil => simp [handleEvents, hc]
  | cons x xs ih =>
      have hx : x.raises = false := hpre x (by simp)
      have hxs : ∀ y ∈ xs, y.raises = false := fun y hy => hpre y (by simp [hy])
      simp [handleEvents, hx, ih hxs]

/-- Witness for C4 at a concrete queue. -/
theorem c4_raising_handler_stops_worker_witness :
    handleEvents [⟨0, 0, false⟩, ⟨1, 1, true⟩, ⟨2, 2, false⟩]
      = ([⟨0, 0, false⟩, ⟨1, 1, true⟩], some ⟨1, 1, true⟩) := by
  have h := c4_raising_handler_stops_worker [⟨0, 0, false⟩] ⟨1, 1, true⟩
    [⟨2, 2, false⟩] (by decide) rfl
  simpa using h

/-- C5 counterexample: with only a wildcard handler registered and no
entry for kind "query" in `self.events`, `emit("query", e)` does
nothing at all — the registered wildcard handler is neither enqueued
nor invoked, although the claim requires it to be invoked in exactly
this situation. -/
theorem c5_wildcard_skipped_cex :
    emitActions [("all", [⟨1, false⟩])] "query" = []
      ∧ EmitAction.enqueue ⟨1, false⟩ ∉ emitActions [("all", [⟨1, false⟩])] "query"
      ∧ EmitAction.syncCall ⟨1, false⟩ ∉ emitActions [("all", [⟨1, false⟩])] "query" := by
  decide

/-- C5 amended: only when the emitted kind has an entry in
`self.events` are handlers dispatched, and then the kind-specific
handlers come before all wildcard handlers; when the kind has no entry
(in particular when no kind-specific handler was ever registered),
nothing is dispatched — wildcard handlers included. -/
theorem c5_wildcard_after_kind_handlers :
    ∀ (reg : List (String × List Handler)) (kind : String) (hs : List Handler),
      (lookupHandlers reg kind = some hs →
        emitActions reg kind
          = hs.map dispatchOf ++ ((lookupHandlers reg "all").getD []).map dispatchOf)
      ∧ (lookupHandlers reg kind = Option.none → emitActions reg kind = []) := by
  intro reg kind hs
  constructor <;> intro h <;> simp [emitActions, h]

/-- Witness for C5: with a kind-specific and a wildcard handler
registered, the kind-specific one is dispatched first. -/
theorem c5_wildcard_after_kind_handlers_witness :
    emitActions [("query", [⟨2, false⟩]), ("all", [⟨1, false⟩])] "query"
      = [EmitAction.enqueue ⟨2, false⟩, EmitAction.enqueue ⟨1, false⟩] := by
  have h := (c5_wildcard_after_kind_handlers
    [("query", [⟨2, false⟩]), ("all", [⟨1, false⟩])] "query" [⟨2, false⟩]).1 rfl
  rw [h]
  decide

/-- C6: an error reply with code `-32000` surfaces to the waiting caller
as a `SurrealQLSyntaxError` carrying the original query text; when the
message contains `line L at character C` the extracted `line`/`index`
fields are exactly `L` and `C`; an error reply with any other code
surfaces as a generic `WebSocketError`. -/
theorem c6_syntax_error_classification :
    ∀ (idv : PyVal) (code : Int) (message queryText : String) (L C : Nat),
      (sendHandleReply (errorReply idv (-32000) message) queryText
          = Except.error (classifyErrorReply (-32000) message queryText))
      ∧ (classifyErrorReply (-32000) message queryText
          = PyErr.surrealQLSyntax message queryText
              (mkSurrealQLSyntaxError message queryText).line
              (mkSurrealQLSyntaxError message queryText).index)
      ∧ (findSyntaxLoc message = some (L, C) →
          (mkSurrealQLSyntaxError message queryText).line = some L
          ∧ (mkSurrealQLSyntaxError message queryText).index = some C)
      ∧ (code ≠ -32000 →
          sendHandleReply (errorReply idv code message) queryText
            = Except.error (PyErr.webSocketError code message)) := by
  intro idv code message queryText L C
  refine ⟨?_, ?_, ?_, ?_⟩
  · simp [sendHandleReply, errorReply, dictGet]
  · cases h : findSyntaxLoc message <;>
      simp [classifyErrorReply, mkSurrealQLSyntaxError, h]
  · intro h
    simp [mkSurrealQLSyntaxError, h]
  · intro h
    simp [sendHandleReply, errorReply, dictGet, classifyErrorReply, h]

/-- Witness for C6 at the spec's own example reply
`{"error": {"code": -32000, "message": "Parse error at line 2 at character 5"}}`
and at a reply with a different code. -/
theorem c6_syntax_error_classification_witness :
    sendHandleReply
        (errorReply (PyVal.str "1") (-32000) "Parse error at line 2 at character 5")
        "SELEC * FROM tbl"
      = Except.error (PyErr.surrealQLSyntax "Parse error at line 2 at character 5"
          "SELEC * FROM tbl" (some 2) (some 5))
    ∧ sendHandleReply (errorReply (PyVal.str "1") (-32700) "oops") "SELECT 1"
      = Except.error (PyErr.webSocketError (-32700) "oops") := by
  constructor
  · have h := c6_syntax_error_classification (PyVal.str "1") 0
      "Parse error at line 2 at character 5" "SELEC * FROM tbl" 2 5
    obtain ⟨hl, hi⟩ := h.2.2.1 (by decide)
    rw [h.1, h.2.1, hl, hi]
  · exact (c6_syntax_error_classification (PyVal.str "1") (-32700) "oops"
      "SELECT 1" 0 0).2.2.2 (by decide)

/-- C7 counterexample: a registered coroutine handler is run by `emit`
on the calling thread (through `run_until_complete`) instead of being
enqueued — so `emit` does not only enqueue, and a handler can run on
the thread that calls `emit` (in particular on the receive path). -/
theorem c7_coroutine_on_calling_thread_cex :
    emitActions [("query", [⟨1, true⟩])] "query"
      = [EmitAction.syncCall ⟨1, true⟩] := by
  decide

/-- C7 amended: only coroutine handlers are invoked on the calling
thread by `emit`; every non-coroutine handler is never invoked there —
it is put on the FIFO queue for the dispatch worker. -/
theorem c7_only_coroutines_on_calling_thread :
    ∀ (reg : List (String × List Handler)) (kind : String) (h : Handler),
      (EmitAction.syncCall h ∈ emitActions reg kind → h.isCoroutine = true)
      ∧ (h.isCoroutine = false → EmitAction.syncCall h ∉ emitActions reg kind)
      ∧ (∀ hs, lookupHandlers reg kind = some hs → h ∈ hs → h.isCoroutine = false →
          EmitAction.enqueue h ∈ emitActions reg kind) := by
  intro reg kind h
  have core : ∀ (l : List Handler),
      EmitAction.syncCall h ∈ l.map dispatchOf → h.isCoroutine = true := by
    intro l hm
    rcases List.mem_map.mp hm with ⟨x, _, hdx⟩
    by_cases hb : x.isCoroutine
    · have hx : x = h := by simpa [dispatchOf, hb] using hdx
      rw [← hx]; exact hb
    · simp [dispatchOf, hb] at hdx
  have first : EmitAction.syncCall h ∈ emitActions reg kind → h.isCoroutine = true := by
    intro hm
    unfold emitActions at hm
    cases hlk : lookupHandlers reg kind with
    | none => rw [hlk] at hm; simp at hm
    | some hs =>
        rw [hlk] at hm
        rcases List.mem_append.mp hm with hl | hr
        · exact core hs hl
        · exact core _ hr
  refine ⟨first, ?_, ?_⟩
  · intro hf hm
    rw [first hm] at hf
    exact Bool.noConfusion hf
  · intro hs hlk hmem hf
    have : EmitAction.enqueue h ∈ hs.map dispatchOf :=
      List.mem_map.mpr ⟨h, hmem, by simp [dispatchOf, hf]⟩
    simp only [emitActions, hlk]
    exact List.mem_append.mpr (Or.inl this)

/-- Witness for C7: a non-coroutine handler is not run on the calling
thread but is enqueued. -/
theorem c7_only_coroutines_on_calling_thread_witness :
    EmitAction.syncCall ⟨2, false⟩
        ∉ emitActions [("query", [⟨1, true⟩, ⟨2, false⟩])] "query"
      ∧ EmitAction.enqueue ⟨2, false⟩
        ∈ emitActions [("query", [⟨1, true⟩, ⟨2, false⟩])] "query" := by
  have h := c7_only_coroutines_on_calling_thread
    [("query", [⟨1, true⟩, ⟨2, false⟩])] "query" ⟨2, false⟩
  exact ⟨h.2.1 rfl, h.2.2 [⟨1, true⟩, ⟨2, false⟩] rfl (by decide) rfl⟩

/-- C8 counterexample: `login` called with a plain dict whose username
is empty does not fail locally at all — the cleaned dict is sent to the
server as a `signin` request (empty strings survive
`_clean_dict_params`, and `ValidationError` is raised nowhere). -/
theorem c8_dict_credentials_not_validated_cex :
    threadLoginRequest (Credentials.dict [("user", PyVal.str ""), ("pass", PyVal.str "x")])
      = Except.ok ("signin", [("user", PyVal.str ""), ("pass", PyVal.str "x")]) := rfl

/-- C8 amended: only credentials built as a `LoginParams` are validated
locally, at construction time, and an empty username or password then
raises the builtin `ValueError` (not `ValidationError`) before any
request is sent; non-empty `LoginParams` and arbitrary dict credentials
are sent as a `signin` request with no local validation. -/
theorem c8_login_validation :
    ∀ (u p : String) (d : List (String × PyVal)),
      (u = "" → loginWithParams u p
          = Except.error (PyErr.valueError "username is required"))
      ∧ (u ≠ "" → p = "" → loginWithParams u p
          = Except.error (PyErr.valueError "password is required"))
      ∧ (u ≠ "" → p ≠ "" → loginWithParams u p
          = Except.ok ("signin", [("user", PyVal.str u), ("pass", PyVal.str p)]))
      ∧ threadLoginRequest (Credentials.dict d)
          = Except.ok ("signin", cleanDictParams d) := by
  intro u p d
  refine ⟨?_, ?_, ?_, rfl⟩
  · intro h
    subst h
    rfl
  · intro hu hp
    subst hp
    simp only [loginWithParams, mkLoginParams, if_neg hu]
    rfl
  · intro hu hp
    simp only [loginWithParams, mkLoginParams, if_neg hu, if_neg hp]
    rfl

/-- Witness for C8 on concrete credentials. -/
theorem c8_login_validation_witness :
    loginWithParams "" "pw" = Except.error (PyErr.valueError "username is required")
      ∧ loginWithParams "root" "" = Except.error (PyErr.valueError "password is required")
      ∧ loginWithParams "root" "secret"
          = Except.ok ("signin", [("user", PyVal.str "root"), ("pass", PyVal.str "secret")]) := by
  exact ⟨(c8_login_validation "" "pw" []).1 rfl,
    (c8_login_validation "root" "" []).2.1 (by decide) rfl,
    (c8_login_validation "root" "secret" []).2.2.1 (by decide) (by decide)⟩

/-- C9 counterexample: a successful
`SurrealClientThread.use("testns", "testdb")` leaves the `namespace`
and `database` properties untouched — they do not become "testns" and
"testdb" as the claim requires. -/
theorem c9_thread_use_no_update_cex :
    (surrealClientThreadUse ⟨Option.none, Option.none, []⟩ "testns" "testdb"
        (UseOutcome.success (PyVal.str "1") PyVal.none)).1.namespaceOpt
        ≠ some "testns"
      ∧ (surrealClientThreadUse ⟨Option.none, Option.none, []⟩ "testns" "testdb"
        (UseOutcome.success (PyVal.str "1") PyVal.none)).1.databaseOpt
        ≠ some "testdb" := by
  constructor <;> intro h <;> exact Option.noConfusion h

/-- C9 amended: in the deprecated base class `SurrealClient`, `use`
updates the namespace/database properties exactly after server
confirmation and leaves them unchanged on failure; the overriding
`SurrealClientThread.use` never updates them — neither on success nor
on failure. -/
theorem c9_use_state_updates :
    ∀ (st : ClientState) (ns db : String) (rid r : PyVal) (code : Int) (msg : String),
      ((surrealClientUse st ns db (UseOutcome.success rid r)).1.namespaceOpt = some ns
        ∧ (surrealClientUse st ns db (UseOutcome.success rid r)).1.databaseOpt = some db
        ∧ (surrealClientUse st ns db (UseOutcome.success rid r)).2 = Except.ok r)
      ∧ (surrealClientUse st ns db (UseOutcome.failure code msg)).1 = st
      ∧ ((surrealClientThreadUse st ns db (UseOutcome.success rid r)).1.namespaceOpt
            = st.namespaceOpt
        ∧ (surrealClientThreadUse st ns db (UseOutcome.success rid r)).1.databaseOpt
            = st.databaseOpt)
      ∧ ((surrealClientThreadUse st ns db (UseOutcome.failure code msg)).1.namespaceOpt
            = st.namespaceOpt
        ∧ (surrealClientThreadUse st ns db (UseOutcome.failure code msg)).1.databaseOpt
            = st.databaseOpt) := by
  intro st ns db rid r code msg
  exact ⟨⟨rfl, rfl, rfl⟩, rfl, ⟨rfl, rfl⟩, ⟨rfl, rfl⟩⟩

/-- Helper: `json_dumps` succeeds on every JSON scalar. -/
theorem jsonDumps_scalar_ok (x : PyVal) (hx : isJsonScalar x = true) :
    ∃ s, jsonDumps x = Except.ok s := by
  cases x with
  | none => exact ⟨_, rfl⟩
  | bool b => cases b <;> exact ⟨_, rfl⟩
  | int n => exact ⟨_, rfl⟩
  | str s => exact ⟨_, rfl⟩
  | list xs => simp [isJsonScalar] at hx
  | tuple xs => simp [isJsonScalar] at hx
  | dict kvs => simp [isJsonScalar] at hx
  | set xs => simp [isJsonScalar] at hx

/-- Helper: `escape_sql_params` on a scalar is exactly `json_dumps`
wrapped into a string. -/
theorem escapeSqlParams_scalar (x : PyVal) (s : String)
    (hs : jsonDumps x = Except.ok s) (hx : isJsonScalar x = true) :
    escapeSqlParams x = Except.ok (PyVal.str s) := by
  cases x with
  | none => injection hs with h; subst h; rfl
  | bool b => cases b <;> (injection hs with h; subst h; rfl)
  | int n => injection hs with h; subst h; rfl
  | str t => injection hs with h; subst h; rfl
  | list xs => simp [isJsonScalar] at hx
  | tuple xs => simp [isJsonScalar] at hx
  | dict kvs => simp [isJsonScalar] at hx
  | set xs => simp [isJsonScalar] at hx

/-- Helper: escaping a list of scalars JSON-encodes each element. -/
theorem escapeSqlList_scalars :
    ∀ (xs : List PyVal), (∀ x ∈ xs, isJsonScalar x = true) →
      ∃ enc : List String,
        List.Forall₂ (fun x s => jsonDumps x = Except.ok s) xs enc
        ∧ escapeSqlList xs = Except.ok (enc.map PyVal.str) := by
  intro xs
  induction xs with
  | nil => intro _; exact ⟨[], List.Forall₂.nil, rfl⟩
  | cons x t ih =>
      intro hall
      obtain ⟨s, hs⟩ := jsonDumps_scalar_ok x (hall x (by simp))
      obtain ⟨enc, hf, he⟩ := ih (fun y hy => hall y (by simp [hy]))
      have hx := escapeSqlParams_scalar x s hs (hall x (by simp))
      refine ⟨s :: enc, List.Forall₂.cons hs hf, ?_⟩
      have hdef : escapeSqlList (x :: t)
          = (escapeSqlParams x).bind (fun e =>
              (escapeSqlList t).bind (fun es => Except.ok (e :: es))) := rfl
      rw [hdef, hx, he]
      rfl

/-- Helper: escaping a dict with scalar values JSON-encodes each
value and keeps the keys. -/
theorem escapeSqlKvs_scalars :
    ∀ (kvs : List (String × PyVal)), (∀ kv ∈ kvs, isJsonScalar kv.2 = true) →
      ∃ enc : List (String × String),
        List.Forall₂ (fun kv e => kv.1 = e.1 ∧ jsonDumps kv.2 = Except.ok e.2) kvs enc
        ∧ escapeSqlKvs kvs = Except.ok (enc.map (fun e => (e.1, PyVal.str e.2))) := by
  intro kvs
  induction kvs with
  | nil => intro _; exact ⟨[], List.Forall₂.nil, rfl⟩
  | cons kv t ih =>
      intro hall
      obtain ⟨k, v⟩ := kv
      obtain ⟨s, hs⟩ := jsonDumps_scalar_ok v (hall (k, v) (by simp))
      obtain ⟨enc, hf, he⟩ := ih (fun y hy => hall y (by simp [hy]))
      have hx := escapeSqlParams_scalar v s hs (hall (k, v) (by simp))
      refine ⟨(k, s) :: enc, List.Forall₂.cons ⟨rfl, hs⟩ hf, ?_⟩
      have hdef : escapeSqlKvs ((k, v) :: t)
          = (escapeSqlParams v).bind (fun e =>
              (escapeSqlKvs t).bind (fun es => Except.ok ((k, e) :: es))) := rfl
      rw [hdef, hx, he]
      rfl

/-- Helper: `str()` undoes the wrapping of encoded text into `str`
values. -/
theorem map_pyStr_map_str :
    ∀ (l : List String), (l.map PyVal.str).map pyStr = l := by
  intro l
  induction l with
  | nil => rfl
  | cons s t ih => simp [pyStr, ih]

/-- Helper: the keyword-argument variant of `map_pyStr_map_str`. -/
theorem map_pyStr_map_str_kvs :
    ∀ (l : List (String × String)),
      ((l.map (fun e => (e.1, PyVal.str e.2))).map (fun kv => (kv.1, pyStr kv.2))) = l := by
  intro l
  induction l with
  | nil => rfl
  | cons e t ih =>
      obtain ⟨a, b⟩ := e
      simp only [List.map_cons, ih]
      rfl

/-- C10 counterexample: with a `set` of bound values — one of the
parameter collections the claim covers — `query` raises `TypeError`
inside `escape_sql_params` (a Python set is not JSON serializable), so
no substituted query is ever sent. -/
theorem c10_set_params_typeerror_cex :
    queryTransmitted "SELECT * FROM person WHERE age > \x7b\x7d"
        (some (PyVal.set [PyVal.int 18]))
      = Except.error (PyErr.typeError "Type is not JSON serializable: set") := rfl

/-- C10 amended: for a list, tuple or dict of scalar bound values each
value is JSON-encoded and substituted textually by `str.format`, and
the formatted text is exactly what is transmitted as the query; a set
of bound values instead raises `TypeError` before anything is sent. -/
theorem c10_scalar_params_substituted :
    ∀ (sql : String) (xs : List PyVal) (kvs : List (String × PyVal)) (ys : List PyVal),
      ((∀ x ∈ xs, isJsonScalar x = true) →
        ∃ enc : List String,
          List.Forall₂ (fun x s => jsonDumps x = Except.ok s) xs enc
          ∧ queryTransmitted sql (some (PyVal.list xs)) = pyFormat sql enc []
          ∧ queryTransmitted sql (some (PyVal.tuple xs)) = pyFormat sql enc [])
      ∧ ((∀ kv ∈ kvs, isJsonScalar kv.2 = true) →
        ∃ enc : List (String × String),
          List.Forall₂ (fun kv e => kv.1 = e.1 ∧ jsonDumps kv.2 = Except.ok e.2) kvs enc
          ∧ queryTransmitted sql (some (PyVal.dict kvs)) = pyFormat sql [] enc)
      ∧ queryTransmitted sql (some (PyVal.set ys))
          = Except.error (PyErr.typeError "Type is not JSON serializable: set") := by
  intro sql xs kvs ys
  refine ⟨?_, ?_, rfl⟩
  · intro hall
    obtain ⟨enc, hf, he⟩ := escapeSqlList_scalars xs hall
    have h0l : escapeSqlParams (PyVal.list xs)
        = Except.ok (PyVal.list (enc.map PyVal.str)) := by
      have hdef : escapeSqlParams (PyVal.list xs)
          = (escapeSqlList xs).bind (fun es => Except.ok (PyVal.list es)) := rfl
      rw [hdef, he]
      rfl
    have h0t : escapeSqlParams (PyVal.tuple xs)
        = Except.ok (PyVal.list (enc.map PyVal.str)) := by
      have hdef : escapeSqlParams (PyVal.tuple xs)
          = (escapeSqlList xs).bind (fun es => Except.ok (PyVal.list es)) := rfl
      rw [hdef, he]
      rfl
    refine ⟨enc, hf, ?_, ?_⟩
    · have h1 : queryTransmitted sql (some (PyVal.list xs))
          = (escapeSqlParams (PyVal.list xs)).bind (fun e =>
              (splatFormatArgs e).bind (fun args => pyFormat sql args [])) := rfl
      rw [h1, h0l]
      show (splatFormatArgs (PyVal.list (enc.map PyVal.str))).bind
          (fun args => pyFormat sql args []) = pyFormat sql enc []
      rw [show splatFormatArgs (PyVal.list (enc.map PyVal.str))
            = Except.ok ((enc.map PyVal.str).map pyStr) from rfl,
          map_pyStr_map_str]
      rfl
    · have h1 : queryTransmitted sql (some (PyVal.tuple xs))
          = (escapeSqlParams (PyVal.tuple xs)).bind (fun e =>
              (splatFormatArgs e).bind (fun args => pyFormat sql args [])) := rfl
      rw [h1, h0t]
      show (splatFormatArgs (PyVal.list (enc.map PyVal.str))).bind
          (fun args => pyFormat sql args []) = pyFormat sql enc []
      rw [show splatFormatArgs (PyVal.list (enc.map PyVal.str))
            = Except.ok ((enc.map PyVal.str).map pyStr) from rfl,
          map_pyStr_map_str]
      rfl
  · intro hall
    obtain ⟨enc, hf, he⟩ := escapeSqlKvs_scalars kvs hall
    have h0 : escapeSqlParams (PyVal.dict kvs)
        = Except.ok (PyVal.dict (enc.map (fun e => (e.1, PyVal.str e.2)))) := by
      have hdef : escapeSqlParams (PyVal.dict kvs)
          = (escapeSqlKvs kvs).bind (fun es => Except.ok (PyVal.dict es)) := rfl
      rw [hdef, he]
      rfl
    refine ⟨enc, hf, ?_⟩
    have h1 : queryTransmitted sql (some (PyVal.dict kvs))
        = (escapeSqlParams (PyVal.dict kvs)).bind (fun e =>
            (kwargsFormatArgs e).bind (fun kw => pyFormat sql [] kw)) := rfl
    rw [h1, h0]
    show (kwargsFormatArgs (PyVal.dict (enc.map (fun e => (e.1, PyVal.str e.2))))).bind
        (fun kw => pyFormat sql [] kw) = pyFormat sql [] enc
    rw [show kwargsFormatArgs (PyVal.dict (enc.map (fun e => (e.1, PyVal.str e.2))))
          = Except.ok ((enc.map (fun e => (e.1, PyVal.str e.2))).map
              (fun kv => (kv.1, pyStr kv.2))) from rfl,
        map_pyStr_map_str_kvs]
    rfl

/-- Witness for C10: concrete scalar bound values are substituted; the
end-to-end evaluation shows the transmitted text, and the set case
errors. -/
theorem c10_scalar_params_substituted_witness :
    (∃ enc : List String,
        List.Forall₂ (fun x s => jsonDumps x = Except.ok s)
          [PyVal.int 18, PyVal.str "bob"] enc
        ∧ queryTransmitted "SELECT * FROM person WHERE age > \x7b\x7d AND name = \x7b\x7d"
            (some (PyVal.list [PyVal.int 18, PyVal.str "bob"]))
          = pyFormat "SELECT * FROM person WHERE age > \x7b\x7d AND name = \x7b\x7d" enc []
        ∧ queryTransmitted "SELECT * FROM person WHERE age > \x7b\x7d AND name = \x7b\x7d"
            (some (PyVal.tuple [PyVal.int 18, PyVal.str "bob"]))
          = pyFormat "SELECT * FROM person WHERE age > \x7b\x7d AND name = \x7b\x7d" enc [])
      ∧ queryTransmitted "SELECT \x7b\x7d" (some (PyVal.set [PyVal.int 1]))
          = Except.error (PyErr.typeError "Type is not JSON serializable: set")
      ∧ queryTransmitted "SELECT * FROM person WHERE age > \x7b\x7d"
          (some (PyVal.list [PyVal.int 18]))
          = Except.ok "SELECT * FROM person WHERE age > 18" := by
  refine ⟨(c10_scalar_params_substituted
      "SELECT * FROM person WHERE age > \x7b\x7d AND name = \x7b\x7d"
      [PyVal.int 18, PyVal.str "bob"] [] []).1 (by decide),
    (c10_scalar_params_substituted "SELECT \x7b\x7d" [] [] [PyVal.int 1]).2.2,
    rfl⟩

end SurrealPy
